import Mathlib

/-!
Verification of the invoice CRUD Lambda application (`hello_world/app.py`).

The file shallowly embeds the program: JSON-like Python values become the
inductive `PyVal`, the API-Gateway proxy event and handler responses become
structures, the DynamoDB table (an external backend) is modelled as an
association list keyed by the `reference_id` attribute value, and the
route table / dispatcher of `lambda_handler` is embedded over a list of
registered routes in registration order.  Python code that can raise is
embedded as `Except String` (the error carries the message that
`str(e)` would produce, up to quoting); a handler's top-level
`try/except` is the final `match` converting an error into a 500
response.  External libraries used by the source (the stdlib `json`
parser, the multipart decoder + S3 + uuid block, `datetime.utcnow`) are
supplied as an explicit environment `ExternalEnv`, since they are not
part of the repository.
-/

namespace InvApp

set_option autoImplicit false

/-- Python values as they occur in this program: JSON scalars, lists and
string-keyed dicts.  `null` is Python `None`.  (DynamoDB `Decimal`s never
arise in the model because the store keeps `PyVal`s directly.) -/
inductive PyVal where
  | str : String → PyVal
  | int : Int → PyVal
  | bool : Bool → PyVal
  | null : PyVal
  | list : List PyVal → PyVal
  | dict : List (String × PyVal) → PyVal

mutual

/-- Structural equality of `PyVal`s, modelling Python `==` on JSON data
(the Python corner `True == 1` is not reproduced; no claim exercises it). -/
def pvBeq : PyVal → PyVal → Bool
  | PyVal.str a, PyVal.str b => a == b
  | PyVal.int a, PyVal.int b => a == b
  | PyVal.bool a, PyVal.bool b => a == b
  | PyVal.null, PyVal.null => true
  | PyVal.list a, PyVal.list b => pvListBeq a b
  | PyVal.dict a, PyVal.dict b => pvDictBeq a b
  | _, _ => false

def pvListBeq : List PyVal → List PyVal → Bool
  | [], [] => true
  | a :: as, b :: bs => pvBeq a b && pvListBeq as bs
  | _, _ => false

def pvDictBeq : List (String × PyVal) → List (String × PyVal) → Bool
  | [], [] => true
  | (k1, v1) :: r1, (k2, v2) :: r2 => k1 == k2 && pvBeq v1 v2 && pvDictBeq r1 r2
  | _, _ => false

end

instance : BEq PyVal := ⟨pvBeq⟩

/-- First value bound to key `k` in an association list; Python dicts have
no duplicate keys, so this is exactly `d.get(k)` / `d[k]` lookup. -/
def alookup {β : Type} (d : List (String × β)) (k : String) : Option β :=
  (d.find? (fun p => p.1 == k)).map (fun p => p.2)

/-- Python `k in d` for a dict. -/
def keyMem {β : Type} (d : List (String × β)) (k : String) : Bool :=
  d.any (fun p => p.1 == k)

/-- Python dict item assignment `d[k] = v`: overwrite in place if the key
exists (keeping its insertion position, as CPython does), else append. -/
def dictSet {β : Type} (d : List (String × β)) (k : String) (v : β) : List (String × β) :=
  if keyMem d k then d.map (fun p => if p.1 == k then (k, v) else p) else d ++ [(k, v)]

mutual

/-- Python `str(...)` on a `PyVal`.  Faithful on scalars (the only values
the program converts: `str(item.get("id"))`).  On containers Python uses
`repr` with quote characters; the rendering here is JSON-like and stands
in for it, which no claim exercises. -/
def py_str : PyVal → String
  | PyVal.str s => s
  | PyVal.int n => toString n
  | PyVal.bool b => if b then "True" else "False"
  | PyVal.null => "None"
  | PyVal.list l => "[" ++ pyStrList l ++ "]"
  | PyVal.dict d => "\x7b" ++ pyStrDict d ++ "\x7d"

def pyStrList : List PyVal → String
  | [] => ""
  | [v] => py_str v
  | v :: r => py_str v ++ ", " ++ pyStrList r

def pyStrDict : List (String × PyVal) → String
  | [] => ""
  | [(k, v)] => k ++ ": " ++ py_str v
  | (k, v) :: r => k ++ ": " ++ py_str v ++ ", " ++ pyStrDict r

end

/-- Python `for x in v`: lists yield elements, strings yield one-character
strings, dicts yield their keys; other values raise `TypeError`. -/
def pyIterate : PyVal → Except String (List PyVal)
  | PyVal.list l => Except.ok l
  | PyVal.str s => Except.ok (s.toList.map (fun c => PyVal.str (String.mk [c])))
  | PyVal.dict d => Except.ok (d.map (fun p => PyVal.str p.1))
  | _ => Except.error "TypeError: argument is not iterable"

/-- Does the character list `s` start with the character list `p`? -/
def charsStartWith : List Char → List Char → Bool
  | _, [] => true
  | [], _ :: _ => false
  | a :: as, b :: bs => a == b && charsStartWith as bs

/-- Python `s.startswith(p)`. -/
def pyStartsWith (s p : String) : Bool := charsStartWith s.toList p.toList

/-- Python `s.endswith(p)`. -/
def pyEndsWith (s p : String) : Bool := charsStartWith s.toList.reverse p.toList.reverse

/-- Substring occurrence on character lists (empty pattern always occurs,
as in Python). -/
def charsContainSub : List Char → List Char → Bool
  | _, [] => true
  | [], _ :: _ => false
  | c :: cs, pat => charsStartWith (c :: cs) pat || charsContainSub cs pat

/-- Python `x in container`: dict key membership, substring test on
strings, element membership on lists; `TypeError` otherwise. -/
def pyContains (container : PyVal) (x : String) : Except String Bool :=
  match container with
  | PyVal.dict d => Except.ok (keyMem d x)
  | PyVal.str s => Except.ok (charsContainSub s.toList x.toList)
  | PyVal.list l => Except.ok (l.any (fun v => pvBeq v (PyVal.str x)))
  | _ => Except.error "TypeError: argument is not a container"

/-- The API-Gateway proxy event, restricted to the fields the dispatcher
and the modelled handlers consult.  `Option` on a field models the key
being absent from (or `null` in) the event dict. -/
structure Event where
  path : Option String
  httpMethod : Option String
  headers : List (String × String)
  body : Option String
  pathParameters : Option (List (String × String))

/-- `event["pathParameters"] = ps` as done by the dispatcher. -/
def setPathParameters (e : Event) (ps : List (String × String)) : Event :=
  ⟨e.path, e.httpMethod, e.headers, e.body, some ps⟩

/-- Handler response.  The body is kept structured: `make_response` in the
source serializes non-string bodies with the external `json.dumps`, which
is injective on this data, so nothing is lost by comparing the
pre-serialization value. -/
structure Response where
  statusCode : Nat
  headers : List (String × String)
  body : PyVal

/-- `make_response(status_code, body)` from app.py lines 18-27.  The
optional `headers` argument is never passed anywhere in the source, so
the default `Content-Type: application/json` header is always used. -/
def make_response (statusCode : Nat) (body : PyVal) : Response :=
  ⟨statusCode, [("Content-Type", "application/json")], body⟩

/-- The DynamoDB `Invoices` table, an external backend (out of scope per
the spec).  Modelled from the spec: a key-value mapping from the
`reference_id` attribute value to the stored record. -/
abbrev Store := List (PyVal × PyVal)

/-- `table.get_item(Key=...)`: `some record` iff `"Item"` is in the
response. -/
def table_get_item (store : Store) (k : PyVal) : Option PyVal :=
  (store.find? (fun p => p.1 == k)).map (fun p => p.2)

/-- `table.put_item(Item=...)`: replace the record stored under `k`. -/
def table_put_item (store : Store) (k : PyVal) (v : PyVal) : Store :=
  store.filter (fun p => !(p.1 == k)) ++ [(k, v)]

/-- `table.delete_item(Key=...)`: remove the record if present; DynamoDB
deletes are idempotent and report success either way. -/
def table_delete_item (store : Store) (k : PyVal) : Store :=
  store.filter (fun p => !(p.1 == k))

/-- Set one attribute of a stored record (records are attribute maps). -/
def setRecordField (rec : PyVal) (f : String) (v : PyVal) : PyVal :=
  match rec with
  | PyVal.dict d => PyVal.dict (dictSet d f v)
  | other => other

/-- `table.update_item(..., UpdateExpression="SET f = :v")`.  Every call
site in the source first checks the key exists, so the DynamoDB upsert
behaviour on an absent key is not modelled. -/
def table_update_set (store : Store) (k : PyVal) (f : String) (v : PyVal) : Store :=
  store.map (fun p => if p.1 == k then (p.1, setRecordField p.2 f v) else p)

mutual

/-- `decimal_to_float` from app.py lines 84-91.  The `Decimal` case is
vacuous here because the store model holds `PyVal`s, which have no
`Decimal` constructor; the recursive structure is kept. -/
def decimal_to_float : PyVal → PyVal
  | PyVal.list l => PyVal.list (dtfList l)
  | PyVal.dict d => PyVal.dict (dtfDict d)
  | v => v

def dtfList : List PyVal → List PyVal
  | [] => []
  | v :: r => decimal_to_float v :: dtfList r

def dtfDict : List (String × PyVal) → List (String × PyVal)
  | [] => []
  | (k, v) :: r => (k, decimal_to_float v) :: dtfDict r

end

/-- The pieces of the program that live outside the repository: the
stdlib `json.loads` parser, the whole multipart branch of
`create_invoice_handler` (lines 99-107: `parse_multipart` via
requests-toolbelt, the S3 upload and the uuid — it yields the form-data
body with `file_url` set, or raises), and `datetime.utcnow().isoformat()`. -/
structure ExternalEnv where
  jsonLoads : String → Except String PyVal
  multipartBody : Event → Except String (List (String × PyVal))
  utcnowIso : String

/-! ## Router and dispatcher (app.py lines 10-16, 269-297) -/

/-- Python `s.strip("/")`: remove all leading and trailing `/`. -/
def pyStrip (s : String) : String :=
  String.mk (((s.toList.dropWhile (fun c => c == '/')).reverse.dropWhile (fun c => c == '/')).reverse)

/-- Python `s.split("/")` (note `"".split("/") = [""]`). -/
def splitSegsAux : List Char → List Char → List String
  | [], cur => [String.mk cur.reverse]
  | c :: rest, cur =>
    if c == '/' then String.mk cur.reverse :: splitSegsAux rest []
    else splitSegsAux rest (c :: cur)

/-- `x.strip("/").split("/")` as computed for both the registered pattern
and the incoming path (lines 280-281). -/
def splitSegs (s : String) : List String := splitSegsAux (pyStrip s).toList []

/-- `route_part[1:-1]`: drop the surrounding braces of a placeholder. -/
def stripBraces (s : String) : String := String.mk (s.toList.drop 1).dropLast

/-- The pairwise segment walk of lines 284-292: placeholders bind, other
segments must be equal; on failure the route is rejected.  `params`
accumulates the path-parameter dict. -/
def walkSegs : List String → List String → List (String × String) → Option (List (String × String))
  | [], [], params => some params
  | rp :: rps, pp :: pps, params =>
    if pyStartsWith rp "\x7b" && pyEndsWith rp "\x7d" then
      walkSegs rps pps (dictSet params (stripBraces rp) pp)
    else if rp == pp then
      walkSegs rps pps params
    else none
  | _, _, _ => none

/-- A handler: request and store in, response and store out.  In the
source any Python exception is caught inside the handler itself, so
handlers are total. -/
abbrev Handler := Event → Store → Response × Store

/-- One `@route(path, method)` registration. -/
structure RouteEntry where
  pattern : String
  method : String
  handler : Handler

/-- `ROUTES.get((path, method))` of line 273.  `ROUTES` is a dict built by
the `route` decorator in registration order with no duplicate keys, so it
is represented by the registration list. -/
def routeLookup (routes : List RouteEntry) (path method : Option String) : Option Handler :=
  (routes.find? (fun r => path == some r.pattern && method == some r.method)).map
    (fun r => r.handler)

/-- Result of dispatching: exact hit, pattern hit with extracted path
parameters, or no route. -/
inductive DispatchOutcome where
  | exact : Handler → DispatchOutcome
  | patternHit : Handler → List (String × String) → DispatchOutcome
  | notFound : DispatchOutcome

/-- The fallback loop of lines 277-295.  The method test (line 278-279)
precedes the `path.strip("/")` of line 281, so a `None` path raises
(`Option.none` result) exactly when some route survives the method test. -/
def patternPhase (routes : List RouteEntry) (path method : Option String) : Option DispatchOutcome :=
  match routes with
  | [] => some DispatchOutcome.notFound
  | r :: rs =>
    if method == some r.method then
      match path with
      | none => none
      | some p =>
        if (splitSegs r.pattern).length == (splitSegs p).length then
          match walkSegs (splitSegs r.pattern) (splitSegs p) [] with
          | some params => some (DispatchOutcome.patternHit r.handler params)
          | none => patternPhase rs path method
        else patternPhase rs path method
    else patternPhase rs path method

/-- Exact lookup first (line 273), then the pattern loop. -/
def dispatch (routes : List RouteEntry) (path method : Option String) : Option DispatchOutcome :=
  match routeLookup routes path method with
  | some h => some (DispatchOutcome.exact h)
  | none => patternPhase routes path method

/-- `lambda_handler` of lines 269-297, parameterized by the registration
list (the source reads the module-level `ROUTES`).  `Option.none` models
an exception escaping the dispatcher; on an exact hit the event is passed
through untouched, on a pattern hit `event["pathParameters"]` is set
first (line 294). -/
def lambda_handler (routes : List RouteEntry) (event : Event) (store : Store) :
    Option (Response × Store) :=
  match dispatch routes event.path event.httpMethod with
  | some (DispatchOutcome.exact h) => some (h event store)
  | some (DispatchOutcome.patternHit h ps) => some (h (setPathParameters event ps) store)
  | some DispatchOutcome.notFound =>
      some (make_response 404 (PyVal.dict [("error", PyVal.str "Not Found")]), store)
  | none => none

/-! ### Declarative matcher, following the words of the spec (sections
4.2 and 8), used to state the refinement claims about the dispatcher. -/

/-- Spec: a pattern segment of the form `(name)` in braces accepts
anything; any other pattern segment must equal the path segment exactly,
case-sensitively. -/
def segMatches (rp pp : String) : Bool :=
  (pyStartsWith rp "\x7b" && pyEndsWith rp "\x7d") || rp == pp

/-- Spec: split both sides on `/` after trimming; if segment counts
differ there is no match, else all segment pairs must match. -/
def specRouteMatches (pattern path : String) : Bool :=
  (splitSegs pattern).length == (splitSegs path).length &&
    ((splitSegs pattern).zip (splitSegs path)).all (fun q => segMatches q.1 q.2)

/-- Spec: the path-parameter mapping binds each placeholder name to the
literal path segment at its position. -/
def specBindings (rps pps : List String) : List (String × String) :=
  (rps.zip pps).foldl
    (fun acc q =>
      if pyStartsWith q.1 "\x7b" && pyEndsWith q.1 "\x7d" then
        dictSet acc (stripBraces q.1) q.2
      else acc) []

/-! ## Handlers (app.py lines 93-267).  Each `*_core` is the body of the
`try` block; the handler wraps it, turning an exception into the 500
response of the `except` clause. -/

/-- Required top-level fields of a create request (lines 115-118). -/
def required_fields : List String :=
  ["reference_id", "company_name", "tin", "invoice_number", "transaction_date",
   "items", "encoder", "payee", "payee_account", "approver"]

/-- Required fields of one line item (line 125 / line 220). -/
def item_required_fields : List String :=
  ["id", "particulars", "project_class", "account", "vatable", "amount"]

/-- First field of `fields` that is `not in v` (Python `in`), or an
iteration `TypeError` for non-container `v`. -/
def first_missing_field : List String → PyVal → Except String (Option String)
  | [], _ => Except.ok none
  | f :: fs, v =>
    match pyContains v f with
    | Except.error e => Except.error e
    | Except.ok true => first_missing_field fs v
    | Except.ok false => Except.ok (some f)

/-- The item loop of lines 124-127: first missing required field over the
items, scanning items in order. -/
def checkItems : List PyVal → Except String (Option String)
  | [] => Except.ok none
  | it :: rest =>
    match first_missing_field item_required_fields it with
    | Except.error e => Except.error e
    | Except.ok (some f) => Except.ok (some f)
    | Except.ok none => checkItems rest

/-- `event["headers"].get("Content-Type") or event["headers"].get("content-type")`
(line 96), including Python falsiness of the empty string on the left of
`or`. -/
def getContentType (hs : List (String × String)) : Option String :=
  match alookup hs "Content-Type" with
  | some s => if s = "" then alookup hs "content-type" else some s
  | none => alookup hs "content-type"

/-- Lines 129-150: duplicate check, then build and store `invoice_data`.
The field reads cannot raise here because the required-fields check has
just passed, so the `KeyError` branch of each read is folded into a
default that is never taken. -/
def create_invoice_write (env : ExternalEnv) (body : List (String × PyVal)) (items : PyVal)
    (rid : PyVal) (store : Store) : Except String (Response × Store) :=
  let get := fun f => (alookup body f).getD PyVal.null
  let invoice_data := PyVal.dict
    [("reference_id", rid),
     ("company_name", get "company_name"),
     ("tin", get "tin"),
     ("invoice_number", get "invoice_number"),
     ("transaction_date", get "transaction_date"),
     ("items", items),
     ("encoder", get "encoder"),
     ("payee", get "payee"),
     ("payee_account", get "payee_account"),
     ("approver", get "approver"),
     ("file_url", (alookup body "file_url").getD (PyVal.str "no-file-uploaded")),
     ("encoding_date", PyVal.str env.utcnowIso),
     ("status", PyVal.str "Pending")]
  Except.ok
    (make_response 201 (PyVal.dict [("message", PyVal.str "Invoice created"), ("data", invoice_data)]),
     table_put_item store rid invoice_data)

/-- Lines 115-150: validation of an acquired body dict, duplicate check,
write. -/
def create_invoice_validated (env : ExternalEnv) (body : List (String × PyVal)) (store : Store) :
    Except String (Response × Store) :=
  match required_fields.find? (fun f => !(keyMem body f)) with
  | some f => Except.ok (make_response 400 (PyVal.dict [("error", PyVal.str ("Missing field: " ++ f))]), store)
  | none =>
    match alookup body "items" with
    | none => Except.error "KeyError: items"
    | some itemsRaw =>
      match (match itemsRaw with
             | PyVal.str s => env.jsonLoads s
             | v => Except.ok v) with
      | Except.error e => Except.error e
      | Except.ok items =>
        match pyIterate items with
        | Except.error e => Except.error e
        | Except.ok itemList =>
          match checkItems itemList with
          | Except.error e => Except.error e
          | Except.ok (some f) =>
            Except.ok (make_response 400 (PyVal.dict [("error", PyVal.str ("Missing item field: " ++ f))]), store)
          | Except.ok none =>
            match alookup body "reference_id" with
            | none => Except.error "KeyError: reference_id"
            | some rid =>
              match table_get_item store rid with
              | some _ =>
                Except.ok (make_response 409 (PyVal.dict [("error", PyVal.str "Invoice already exists")]), store)
              | none => create_invoice_write env body items rid store

/-- Lines 96-113: acquire the body according to Content-Type, then
validate.  A missing/`None` content type raises `AttributeError` on
`.startswith` (the Python message carries quote characters, elided
here); a JSON body that is not an object raises `TypeError` at the
`body["file_url"]` assignment of line 111. -/
def create_invoice_core (env : ExternalEnv) (event : Event) (store : Store) :
    Except String (Response × Store) :=
  match getContentType event.headers with
  | none => Except.error "AttributeError: NoneType object has no attribute startswith"
  | some ct =>
    if pyStartsWith ct "multipart/form-data" then
      match env.multipartBody event with
      | Except.error e => Except.error e
      | Except.ok body => create_invoice_validated env body store
    else if pyStartsWith ct "application/json" then
      match env.jsonLoads (event.body.getD "\x7b\x7d") with
      | Except.error e => Except.error e
      | Except.ok (PyVal.dict d) =>
        create_invoice_validated env (dictSet d "file_url" (PyVal.str "no-file-uploaded")) store
      | Except.ok _ => Except.error "TypeError: object does not support item assignment"
    else
      Except.ok (make_response 400 (PyVal.dict [("error", PyVal.str "Unsupported Content-Type")]), store)

/-- `create_invoice_handler` (lines 93-153). -/
def create_invoice_handler (env : ExternalEnv) : Handler := fun event store =>
  match create_invoice_core env event store with
  | Except.ok r => r
  | Except.error e => (make_response 500 (PyVal.dict [("error", PyVal.str e)]), store)

/-- `get_all_invoices` (lines 155-162): `table.scan()` then
`decimal_to_float` per item; the scan of the modelled store cannot fail. -/
def get_all_invoices : Handler := fun _event store =>
  (make_response 200 (PyVal.list (store.map (fun p => decimal_to_float p.2))), store)

/-- Body of `get_invoice_handler` (lines 166-171). -/
def get_invoice_core (event : Event) (store : Store) : Except String (Response × Store) :=
  match event.pathParameters with
  | none => Except.error "KeyError: pathParameters"
  | some ps =>
    match alookup ps "reference_id" with
    | none => Except.error "KeyError: reference_id"
    | some rid =>
      match table_get_item store (PyVal.str rid) with
      | some item => Except.ok (make_response 200 (decimal_to_float item), store)
      | none => Except.ok (make_response 404 (PyVal.dict [("error", PyVal.str "Invoice not found")]), store)

/-- `get_invoice_handler` (lines 164-173). -/
def get_invoice_handler : Handler := fun event store =>
  match get_invoice_core event store with
  | Except.ok r => r
  | Except.error e => (make_response 500 (PyVal.dict [("error", PyVal.str e)]), store)

/-- Fields a PUT update may touch (line 180). -/
def allowed_fields : List String := ["company_name", "tin", "transaction_date", "items"]

/-- Lines 186-191: collect `(field, body[field])` for the allowed fields
present in the body, in the allowed-field order. -/
def collectUpdates : PyVal → List String → Except String (List (String × PyVal))
  | _, [] => Except.ok []
  | b, f :: fs =>
    match pyContains b f with
    | Except.error e => Except.error e
    | Except.ok false => collectUpdates b fs
    | Except.ok true =>
      match (match b with
             | PyVal.dict d => (alookup d f).map Except.ok |>.getD (Except.error "KeyError")
             | _ => Except.error "TypeError: value is not subscriptable by str") with
      | Except.error e => Except.error e
      | Except.ok v =>
        match collectUpdates b fs with
        | Except.error e => Except.error e
        | Except.ok rest => Except.ok ((f, v) :: rest)

/-- Body of `update_invoice_handler` (lines 177-202). -/
def update_invoice_core (env : ExternalEnv) (event : Event) (store : Store) :
    Except String (Response × Store) :=
  match event.pathParameters with
  | none => Except.error "KeyError: pathParameters"
  | some ps =>
    match alookup ps "reference_id" with
    | none => Except.error "KeyError: reference_id"
    | some rid =>
      match env.jsonLoads (event.body.getD "\x7b\x7d") with
      | Except.error e => Except.error e
      | Except.ok bodyV =>
        match table_get_item store (PyVal.str rid) with
        | none => Except.ok (make_response 404 (PyVal.dict [("error", PyVal.str "Invoice not found")]), store)
        | some _ =>
          match collectUpdates bodyV allowed_fields with
          | Except.error e => Except.error e
          | Except.ok [] =>
            Except.ok (make_response 400 (PyVal.dict [("error", PyVal.str "No valid fields to update")]), store)
          | Except.ok updates =>
            Except.ok (make_response 200 (PyVal.dict [("message", PyVal.str "Invoice updated")]),
              updates.foldl (fun st u => table_update_set st (PyVal.str rid) u.1 u.2) store)

/-- `update_invoice_handler` (lines 175-204). -/
def update_invoice_handler (env : ExternalEnv) : Handler := fun event store =>
  match update_invoice_core env event store with
  | Except.ok r => r
  | Except.error e => (make_response 500 (PyVal.dict [("error", PyVal.str e)]), store)

/-- Body of `delete_invoice_handler` (lines 208-211): no existence check,
the delete is issued unconditionally and 200 is returned. -/
def delete_invoice_core (event : Event) (store : Store) : Except String (Response × Store) :=
  match event.pathParameters with
  | none => Except.error "KeyError: pathParameters"
  | some ps =>
    match alookup ps "reference_id" with
    | none => Except.error "KeyError: reference_id"
    | some rid =>
      Except.ok (make_response 200 (PyVal.dict [("message", PyVal.str "Invoice deleted")]),
        table_delete_item store (PyVal.str rid))

/-- `delete_invoice_handler` (lines 206-213). -/
def delete_invoice_handler : Handler := fun event store =>
  match delete_invoice_core event store with
  | Except.ok r => r
  | Except.error e => (make_response 500 (PyVal.dict [("error", PyVal.str e)]), store)

/-- Body of `add_item_to_invoice` (lines 217-239). -/
def add_item_core (env : ExternalEnv) (event : Event) (store : Store) :
    Except String (Response × Store) :=
  match event.pathParameters with
  | none => Except.error "KeyError: pathParameters"
  | some ps =>
    match alookup ps "reference_id" with
    | none => Except.error "KeyError: reference_id"
    | some rid =>
      match env.jsonLoads (event.body.getD "\x7b\x7d") with
      | Except.error e => Except.error e
      | Except.ok bodyV =>
        match first_missing_field item_required_fields bodyV with
        | Except.error e => Except.error e
        | Except.ok (some f) =>
          Except.ok (make_response 400 (PyVal.dict [("error", PyVal.str ("Missing item field: " ++ f))]), store)
        | Except.ok none =>
          match table_get_item store (PyVal.str rid) with
          | none => Except.ok (make_response 404 (PyVal.dict [("error", PyVal.str "Invoice not found")]), store)
          | some inv =>
            match (match inv with
                   | PyVal.dict d2 => Except.ok ((alookup d2 "items").getD (PyVal.list []))
                   | _ => Except.error "AttributeError: object has no attribute get") with
            | Except.error e => Except.error e
            | Except.ok itemsV =>
              match itemsV with
              | PyVal.list l =>
                Except.ok (make_response 200 (PyVal.dict [("message", PyVal.str "Item added"), ("data", bodyV)]),
                  table_update_set store (PyVal.str rid) "items" (PyVal.list (l ++ [bodyV])))
              | _ => Except.error "AttributeError: object has no attribute append"

/-- `add_item_to_invoice` (lines 215-241). -/
def add_item_to_invoice (env : ExternalEnv) : Handler := fun event store =>
  match add_item_core env event store with
  | Except.ok r => r
  | Except.error e => (make_response 500 (PyVal.dict [("error", PyVal.str e)]), store)

/-- The list comprehension of line 254: keep the items whose
`str(item.get("id"))` differs from the path `item_id`; a non-dict item
raises at `item.get`. -/
def filterItems (iid : String) : List PyVal → Except String (List PyVal)
  | [] => Except.ok []
  | it :: rest =>
    match (match it with
           | PyVal.dict d => Except.ok ((alookup d "id").getD PyVal.null)
           | _ => Except.error "AttributeError: object has no attribute get") with
    | Except.error e => Except.error e
    | Except.ok idv =>
      match filterItems iid rest with
      | Except.error e => Except.error e
      | Except.ok tail => Except.ok (if py_str idv == iid then tail else it :: tail)

/-- Body of `delete_item_from_invoice` (lines 246-265). -/
def delete_item_core (event : Event) (store : Store) : Except String (Response × Store) :=
  match event.pathParameters with
  | none => Except.error "KeyError: pathParameters"
  | some ps =>
    match alookup ps "reference_id" with
    | none => Except.error "KeyError: reference_id"
    | some rid =>
      match alookup ps "item_id" with
      | none => Except.error "KeyError: item_id"
      | some iid =>
        match table_get_item store (PyVal.str rid) with
        | none => Except.ok (make_response 404 (PyVal.dict [("error", PyVal.str "Invoice not found")]), store)
        | some inv =>
          match (match inv with
                 | PyVal.dict d2 => Except.ok ((alookup d2 "items").getD (PyVal.list []))
                 | _ => Except.error "AttributeError: object has no attribute get") with
          | Except.error e => Except.error e
          | Except.ok itemsV =>
            match pyIterate itemsV with
            | Except.error e => Except.error e
            | Except.ok orig =>
              match filterItems iid orig with
              | Except.error e => Except.error e
              | Except.ok updated =>
                if updated.length = orig.length then
                  Except.ok (make_response 404 (PyVal.dict [("error", PyVal.str "Item not found")]), store)
                else
                  Except.ok (make_response 200 (PyVal.dict [("message", PyVal.str ("Item " ++ iid ++ " deleted"))]),
                    table_update_set store (PyVal.str rid) "items" (PyVal.list updated))

/-- `delete_item_from_invoice` (lines 243-267). -/
def delete_item_from_invoice : Handler := fun event store =>
  match delete_item_core event store with
  | Except.ok r => r
  | Except.error e => (make_response 500 (PyVal.dict [("error", PyVal.str e)]), store)

/-- The route table built by the `@route` decorations, in registration
(= source) order.  Keys are pairwise distinct, so the list is exactly the
`ROUTES` dict in iteration order. -/
def app_routes (env : ExternalEnv) : List RouteEntry :=
  [⟨"/invoices", "POST", create_invoice_handler env⟩,
   ⟨"/invoices", "GET", get_all_invoices⟩,
   ⟨"/invoices/\x7breference_id\x7d", "GET", get_invoice_handler⟩,
   ⟨"/invoices/\x7breference_id\x7d", "PUT", update_invoice_handler env⟩,
   ⟨"/invoices/\x7breference_id\x7d", "DELETE", delete_invoice_handler⟩,
   ⟨"/invoices/\x7breference_id\x7d/items", "POST", add_item_to_invoice env⟩,
   ⟨"/invoices/\x7breference_id\x7d/items/\x7bitem_id\x7d", "DELETE", delete_item_from_invoice⟩]

/-- The body-acquisition step of `create_invoice_handler` (lines 96-113)
succeeded and produced `body`: either the multipart branch returned it,
or the JSON branch parsed the event body to an object and set
`file_url`. -/
def acquires_body (env : ExternalEnv) (ev : Event) (body : List (String × PyVal)) : Prop :=
  (∃ ct, getContentType ev.headers = some ct ∧ pyStartsWith ct "multipart/form-data" = true ∧
     env.multipartBody ev = Except.ok body) ∨
  (∃ ct d, getContentType ev.headers = some ct ∧ pyStartsWith ct "multipart/form-data" = false ∧
     pyStartsWith ct "application/json" = true ∧
     env.jsonLoads (ev.body.getD "\x7b\x7d") = Except.ok (PyVal.dict d) ∧
     body = dictSet d "file_url" (PyVal.str "no-file-uploaded"))

/-! ## Helper lemmas -/

theorem pv_beq_def (a b : PyVal) : (a == b) = pvBeq a b := rfl

mutual

theorem pvBeq_refl : (v : PyVal) → pvBeq v v = true
  | PyVal.str _ => by simp [pvBeq]
  | PyVal.int _ => by simp [pvBeq]
  | PyVal.bool _ => by simp [pvBeq]
  | PyVal.null => by simp [pvBeq]
  | PyVal.list l => by simp only [pvBeq]; exact pvListBeq_refl l
  | PyVal.dict d => by simp only [pvBeq]; exact pvDictBeq_refl d

theorem pvListBeq_refl : (l : List PyVal) → pvListBeq l l = true
  | [] => rfl
  | v :: r => by
    simp only [pvListBeq, Bool.and_eq_true]
    exact ⟨pvBeq_refl v, pvListBeq_refl r⟩

theorem pvDictBeq_refl : (d : List (String × PyVal)) → pvDictBeq d d = true
  | [] => rfl
  | (k, v) :: r => by
    simp only [pvDictBeq, Bool.and_eq_true, beq_self_eq_true, true_and]
    exact ⟨pvBeq_refl v, pvDictBeq_refl r⟩

end

mutual

theorem decimal_to_float_id : (v : PyVal) → decimal_to_float v = v
  | PyVal.str _ => rfl
  | PyVal.int _ => rfl
  | PyVal.bool _ => rfl
  | PyVal.null => rfl
  | PyVal.list l => by simp only [decimal_to_float]; rw [dtfList_id l]
  | PyVal.dict d => by simp only [decimal_to_float]; rw [dtfDict_id d]

theorem dtfList_id : (l : List PyVal) → dtfList l = l
  | [] => rfl
  | v :: r => by simp only [dtfList]; rw [decimal_to_float_id v, dtfList_id r]

theorem dtfDict_id : (d : List (String × PyVal)) → dtfDict d = d
  | [] => rfl
  | (k, v) :: r => by simp only [dtfDict]; rw [decimal_to_float_id v, dtfDict_id r]

end

theorem find?_filterNe (store : Store) (k : PyVal) :
    (store.filter (fun p => !(p.1 == k))).find? (fun p => p.1 == k) = none := by
  induction store with
  | nil => rfl
  | cons p rest ih =>
    by_cases h : (p.1 == k) = true
    · simp [List.filter_cons, h, ih]
    · simp only [Bool.not_eq_true] at h
      simp [List.filter_cons, h, List.find?, ih]

theorem table_get_put (store : Store) (k v : PyVal) :
    table_get_item (table_put_item store k v) k = some v := by
  unfold table_get_item table_put_item
  have happ : ((store.filter (fun p => !(p.1 == k))) ++ [(k, v)]).find? (fun p => p.1 == k) =
      some (k, v) := by
    induction store with
    | nil => simp [List.find?, pv_beq_def, pvBeq_refl]
    | cons p rest ih =>
      by_cases h : (p.1 == k) = true
      · simpa [List.filter_cons, h] using ih
      · simp only [Bool.not_eq_true] at h
        simp [List.filter_cons, h, List.find?, ih]
  rw [happ]
  rfl

theorem find?_congrP {α : Type} (l : List α) (p q : α → Bool) (h : ∀ x ∈ l, p x = q x) :
    l.find? p = l.find? q := by
  induction l with
  | nil => rfl
  | cons a rest ih =>
    have ha := h a (List.mem_cons_self a rest)
    by_cases hp : p a = true
    · rw [List.find?_cons_of_pos _ hp, List.find?_cons_of_pos _ (ha ▸ hp)]
    · simp only [Bool.not_eq_true] at hp
      rw [List.find?_cons_of_neg _ (by simp [hp]), List.find?_cons_of_neg _ (by simp [← ha, hp])]
      exact ih (fun x hx => h x (List.mem_cons_of_mem a hx))

theorem any_congrP {α : Type} (l : List α) (p q : α → Bool) (h : ∀ x ∈ l, p x = q x) :
    l.any p = l.any q := by
  induction l with
  | nil => rfl
  | cons a rest ih =>
    simp only [List.any_cons]
    rw [h a (List.mem_cons_self a rest), ih (fun x hx => h x (List.mem_cons_of_mem a hx))]

theorem keyMem_map_replace {β : Type} (d : List (String × β)) (k f : String) (v : β) :
    keyMem (d.map (fun p => if p.1 == k then (k, v) else p)) f = keyMem d f := by
  unfold keyMem
  rw [List.any_map]
  apply any_congrP
  intro p _
  by_cases hp : (p.1 == k) = true
  · have hk : p.1 = k := eq_of_beq hp
    simp [Function.comp, hp, hk]
  · simp only [Bool.not_eq_true] at hp
    simp [Function.comp, hp]

theorem keyMem_dictSet {β : Type} (d : List (String × β)) (k f : String) (v : β) :
    keyMem (dictSet d k v) f = (keyMem d f || (f == k)) := by
  unfold dictSet
  by_cases hmem : keyMem d k = true
  · rw [if_pos hmem, keyMem_map_replace]
    by_cases hf : f = k
    · subst hf
      simp [hmem]
    · simp [beq_eq_false_iff_ne.mpr hf]
  · simp only [Bool.not_eq_true] at hmem
    rw [if_neg (by simp [hmem]), keyMem, List.any_append]
    have : ([(k, v)].any fun p => p.1 == f) = (f == k) := by
      by_cases hf : f = k
      · subst hf; simp
      · simp [beq_eq_false_iff_ne.mpr hf, beq_eq_false_iff_ne.mpr (Ne.symm hf)]
    rw [this]
    rfl

theorem alookup_map_replace_self {β : Type} (d : List (String × β)) (k : String) (v : β)
    (hmem : keyMem d k = true) :
    alookup (d.map (fun p => if p.1 == k then (k, v) else p)) k = some v := by
  induction d with
  | nil => simp [keyMem] at hmem
  | cons p rest ih =>
    by_cases hp : (p.1 == k) = true
    · simp [alookup, List.find?, hp]
    · simp only [Bool.not_eq_true] at hp
      have hrest : keyMem rest k = true := by
        simp only [keyMem, List.any_cons, hp, Bool.false_or] at hmem
        exact hmem
      simpa [alookup, List.find?, hp] using ih hrest

theorem alookup_map_replace_ne {β : Type} (d : List (String × β)) (k k2 : String) (v : β)
    (hne : k2 ≠ k) :
    alookup (d.map (fun p => if p.1 == k then (k, v) else p)) k2 = alookup d k2 := by
  induction d with
  | nil => rfl
  | cons p rest ih =>
    by_cases hp : (p.1 == k) = true
    · have hk : p.1 = k := eq_of_beq hp
      have h1 : (k == k2) = false := beq_eq_false_iff_ne.mpr (Ne.symm hne)
      have h2 : (p.1 == k2) = false := by rw [hk]; exact h1
      simpa [alookup, List.find?, hp, h1, h2] using ih
    · simp only [Bool.not_eq_true] at hp
      by_cases hk2 : (p.1 == k2) = true
      · simp [alookup, List.find?, hp, hk2]
      · simp only [Bool.not_eq_true] at hk2
        simpa [alookup, List.find?, hp, hk2] using ih

theorem alookup_append_single {β : Type} (d : List (String × β)) (k k2 : String) (v : β)
    (hmem : keyMem d k = false) :
    alookup (d ++ [(k, v)]) k2 = if k2 = k then some v else alookup d k2 := by
  induction d with
  | nil =>
    by_cases hk : k2 = k
    · subst hk; simp [alookup, List.find?]
    · simp [alookup, List.find?, beq_eq_false_iff_ne.mpr (fun h => hk (Eq.symm h)), hk]
  | cons p rest ih =>
    have hp : (p.1 == k) = false := by
      by_contra hc
      simp only [Bool.not_eq_false] at hc
      simp [keyMem, List.any_cons, hc] at hmem
    have hrest : keyMem rest k = false := by
      simp only [keyMem, List.any_cons, hp, Bool.false_or] at hmem
      exact hmem
    by_cases hk2 : (p.1 == k2) = true
    · have : k2 ≠ k := by
        intro he
        subst he
        rw [hk2] at hp
        exact Bool.true_eq_false.mp hp
      simp [alookup, List.find?, hk2, this]
    · simp only [Bool.not_eq_true] at hk2
      simpa [alookup, List.find?, hk2] using ih hrest

/-- Lookup after Python dict assignment: the assigned key reads back the
new value, every other key is unaffected. -/
theorem alookup_dictSet {β : Type} (d : List (String × β)) (k k2 : String) (v : β) :
    alookup (dictSet d k v) k2 = if k2 = k then some v else alookup d k2 := by
  unfold dictSet
  by_cases hmem : keyMem d k = true
  · rw [if_pos hmem]
    by_cases hk : k2 = k
    · subst hk
      rw [if_pos rfl, alookup_map_replace_self d k2 v hmem]
    · rw [if_neg hk, alookup_map_replace_ne d k k2 v hk]
  · simp only [Bool.not_eq_true] at hmem
    rw [if_neg (by simp [hmem]), alookup_append_single d k k2 v hmem]

/-- The segment walk agrees with the declarative matcher: on equal-length
segment lists it succeeds iff every pattern/path segment pair matches,
and then returns exactly the placeholder bindings folded over the pairs. -/
theorem walkSegs_eq_spec : ∀ (rps pps : List String) (acc : List (String × String)),
    rps.length = pps.length →
    walkSegs rps pps acc =
      (if (rps.zip pps).all (fun q => segMatches q.1 q.2) then
        some ((rps.zip pps).foldl
          (fun a q =>
            if pyStartsWith q.1 "\x7b" && pyEndsWith q.1 "\x7d" then
              dictSet a (stripBraces q.1) q.2
            else a) acc)
      else none) := by
  intro rps
  induction rps with
  | nil =>
    intro pps acc h
    cases pps with
    | nil => simp [walkSegs]
    | cons pp pps => simp at h
  | cons rp rps ih =>
    intro pps acc h
    cases pps with
    | nil => simp at h
    | cons pp pps =>
      have hlen : rps.length = pps.length := by simpa using h
      by_cases hph : (pyStartsWith rp "\x7b" && pyEndsWith rp "\x7d") = true
      · have hseg : segMatches rp pp = true := by simp [segMatches, hph]
        simp only [walkSegs, hph, if_true, List.zip_cons_cons, List.all_cons, hseg,
          Bool.true_and, List.foldl_cons]
        exact ih pps (dictSet acc (stripBraces rp) pp) hlen
      · simp only [Bool.not_eq_true] at hph
        by_cases heq : (rp == pp) = true
        · have hseg : segMatches rp pp = true := by simp [segMatches, heq]
          simp only [walkSegs, hph, Bool.false_eq_true, if_false, heq, if_true,
            List.zip_cons_cons, List.all_cons, hseg, Bool.true_and, List.foldl_cons]
          exact ih pps acc hlen
        · simp only [Bool.not_eq_true] at heq
          have hseg : segMatches rp pp = false := by simp [segMatches, hph, heq]
          simp [walkSegs, hph, heq, List.zip_cons_cons, List.all_cons, hseg]

/-- The fallback loop of the dispatcher is exactly "first registered
route whose method equals the request method and which matches the path
declaratively, yielding the spec bindings". -/
theorem patternPhase_eq_find : ∀ (routes : List RouteEntry) (p m : String),
    patternPhase routes (some p) (some m) =
      some (match routes.find? (fun r => (r.method == m) && specRouteMatches r.pattern p) with
            | some r =>
                DispatchOutcome.patternHit r.handler (specBindings (splitSegs r.pattern) (splitSegs p))
            | none => DispatchOutcome.notFound) := by
  intro routes
  induction routes with
  | nil => intro p m; rfl
  | cons r rs ih =>
    intro p m
    by_cases hm : r.method = m
    · have hm1 : ((some m == some r.method) : Bool) = true := by
        show (m == r.method) = true
        rw [hm]
        exact beq_self_eq_true m
      have hm2 : (r.method == m) = true := by rw [hm]; exact beq_self_eq_true m
      by_cases hlen : ((splitSegs r.pattern).length == (splitSegs p).length) = true
      · have hlen' : (splitSegs r.pattern).length = (splitSegs p).length := eq_of_beq hlen
        by_cases hall : (((splitSegs r.pattern).zip (splitSegs p)).all
            (fun q => segMatches q.1 q.2)) = true
        · have hmatch : specRouteMatches r.pattern p = true := by
            simp [specRouteMatches, hlen, hall]
          have hfind :
              List.find? (fun rr => (rr.method == m) && specRouteMatches rr.pattern p) (r :: rs) =
                some r := by
            simp only [List.find?, hm2, hmatch, Bool.and_self]
          rw [hfind]
          simp only [patternPhase, hm1, if_true, hlen, walkSegs_eq_spec _ _ [] hlen', hall,
            if_true]
          rfl
        · simp only [Bool.not_eq_true] at hall
          have hmatch : specRouteMatches r.pattern p = false := by
            simp [specRouteMatches, hall]
          have hfind :
              List.find? (fun rr => (rr.method == m) && specRouteMatches rr.pattern p) (r :: rs) =
                List.find? (fun rr => (rr.method == m) && specRouteMatches rr.pattern p) rs := by
            simp only [List.find?, hm2, hmatch, Bool.and_false]
          rw [hfind]
          simp only [patternPhase, hm1, if_true, hlen, walkSegs_eq_spec _ _ [] hlen', hall,
            Bool.false_eq_true, if_false]
          exact ih p m
      · simp only [Bool.not_eq_true] at hlen
        have hmatch : specRouteMatches r.pattern p = false := by
          simp [specRouteMatches, hlen]
        have hfind :
            List.find? (fun rr => (rr.method == m) && specRouteMatches rr.pattern p) (r :: rs) =
              List.find? (fun rr => (rr.method == m) && specRouteMatches rr.pattern p) rs := by
          simp only [List.find?, hm2, hmatch, Bool.and_false]
        rw [hfind]
        simp only [patternPhase, hm1, if_true, hlen, Bool.false_eq_true, if_false]
        exact ih p m
    · have hm1 : ((some m == some r.method) : Bool) = false := by
        show (m == r.method) = false
        exact beq_eq_false_iff_ne.mpr (fun h => hm (Eq.symm h))
      have hm2 : (r.method == m) = false := beq_eq_false_iff_ne.mpr hm
      have hfind :
          List.find? (fun rr => (rr.method == m) && specRouteMatches rr.pattern p) (r :: rs) =
            List.find? (fun rr => (rr.method == m) && specRouteMatches rr.pattern p) rs := by
        simp only [List.find?, hm2, Bool.false_and]
      rw [hfind]
      simp only [patternPhase, hm1, Bool.false_eq_true, if_false]
      exact ih p m

/-- With a present path the fallback loop always produces an outcome:
not-found, or a pattern hit on one of the registered routes. -/
theorem patternPhase_shape : ∀ (routes : List RouteEntry) (p : String) (m : Option String),
    ∃ o, patternPhase routes (some p) m = some o ∧
      (o = DispatchOutcome.notFound ∨
        ∃ r, r ∈ routes ∧ ∃ ps, o = DispatchOutcome.patternHit r.handler ps) := by
  intro routes
  induction routes with
  | nil =>
    intro p m
    exact ⟨DispatchOutcome.notFound, rfl, Or.inl rfl⟩
  | cons r rs ih =>
    intro p m
    by_cases hm : (m == some r.method) = true
    · by_cases hlen : ((splitSegs r.pattern).length == (splitSegs p).length) = true
      · cases hwalk : walkSegs (splitSegs r.pattern) (splitSegs p) [] with
        | some params =>
          refine ⟨DispatchOutcome.patternHit r.handler params, ?_, ?_⟩
          · simp [patternPhase, hm, hlen, hwalk]
          · exact Or.inr ⟨r, List.mem_cons_self r rs, params, rfl⟩
        | none =>
          obtain ⟨o, ho, hshape⟩ := ih p m
          refine ⟨o, ?_, ?_⟩
          · simp [patternPhase, hm, hlen, hwalk, ho]
          · rcases hshape with h | ⟨r2, hr2, ps, hps⟩
            · exact Or.inl h
            · exact Or.inr ⟨r2, List.mem_cons_of_mem r hr2, ps, hps⟩
      · simp only [Bool.not_eq_true] at hlen
        obtain ⟨o, ho, hshape⟩ := ih p m
        refine ⟨o, ?_, ?_⟩
        · simp [patternPhase, hm, hlen, ho]
        · rcases hshape with h | ⟨r2, hr2, ps, hps⟩
          · exact Or.inl h
          · exact Or.inr ⟨r2, List.mem_cons_of_mem r hr2, ps, hps⟩
    · simp only [Bool.not_eq_true] at hm
      obtain ⟨o, ho, hshape⟩ := ih p m
      refine ⟨o, ?_, ?_⟩
      · simp [patternPhase, hm, ho]
      · rcases hshape with h | ⟨r2, hr2, ps, hps⟩
        · exact Or.inl h
        · exact Or.inr ⟨r2, List.mem_cons_of_mem r hr2, ps, hps⟩

/-- When no registered route has the request's method, the fallback loop
never touches the path and reports not-found. -/
theorem patternPhase_no_method : ∀ (routes : List RouteEntry) (p? m? : Option String),
    (∀ r ∈ routes, (m? == some r.method) = false) →
    patternPhase routes p? m? = some DispatchOutcome.notFound := by
  intro routes
  induction routes with
  | nil => intro p? m? _; rfl
  | cons r rs ih =>
    intro p? m? h
    have hr := h r (List.mem_cons_self r rs)
    simp only [patternPhase, hr, Bool.false_eq_true, if_false]
    exact ih p? m? (fun r2 hr2 => h r2 (List.mem_cons_of_mem r hr2))

/-- Once the body-acquisition step has produced `body`, the create
handler's remaining behaviour is `create_invoice_validated`. -/
theorem create_core_of_acquires (env : ExternalEnv) (ev : Event) (store : Store)
    (body : List (String × PyVal)) (h : acquires_body env ev body) :
    create_invoice_core env ev store = create_invoice_validated env body store := by
  rcases h with ⟨ct, hct, hmp, hbody⟩ | ⟨ct, d, hct, hmp, hjson, hload, hbody⟩
  · simp [create_invoice_core, hct, hmp, hbody]
  · subst hbody
    simp [create_invoice_core, hct, hmp, hjson, hload]

theorem first_missing_none (dd : List (String × PyVal)) (fields : List String)
    (h : ∀ g ∈ fields, keyMem dd g = true) :
    first_missing_field fields (PyVal.dict dd) = Except.ok none := by
  induction fields with
  | nil => rfl
  | cons f fs ih =>
    have hf := h f (List.mem_cons_self f fs)
    simp only [first_missing_field, pyContains, hf]
    exact ih (fun g hg => h g (List.mem_cons_of_mem f hg))

theorem checkItems_ok (its : List PyVal)
    (h : ∀ it ∈ its, ∃ dd, it = PyVal.dict dd ∧ ∀ g ∈ item_required_fields, keyMem dd g = true) :
    checkItems its = Except.ok none := by
  induction its with
  | nil => rfl
  | cons it rest ih =>
    obtain ⟨dd, hdd, hfields⟩ := h it (List.mem_cons_self it rest)
    subst hdd
    simp only [checkItems, first_missing_none dd item_required_fields hfields]
    exact ih (fun x hx => h x (List.mem_cons_of_mem _ hx))

theorem filterItems_all_ne (iid : String) (its : List PyVal)
    (h : ∀ it ∈ its, ∃ dd, it = PyVal.dict dd ∧
          py_str ((alookup dd "id").getD PyVal.null) ≠ iid) :
    filterItems iid its = Except.ok its := by
  induction its with
  | nil => rfl
  | cons it rest ih =>
    obtain ⟨dd, hdd, hne⟩ := h it (List.mem_cons_self it rest)
    subst hdd
    simp only [filterItems, ih (fun x hx => h x (List.mem_cons_of_mem _ hx)),
      beq_eq_false_iff_ne.mpr hne, Bool.false_eq_true, if_false]

theorem required_find_none (body : List (String × PyVal))
    (h : ∀ f ∈ required_fields, keyMem body f = true) :
    required_fields.find? (fun f => !(keyMem body f)) = none := by
  apply List.find?_eq_none.mpr
  intro x hx
  simp [h x hx]

/-! ## Claim C5 -/

/-- C5 counterexample: deleting a `reference_id` that is absent from the
store returns 200, not the 404 the claim states — the handler never
checks existence. -/
theorem delete_absent_invoice_cex :
    delete_invoice_handler ⟨some "/invoices/X", some "DELETE", [], none,
        some [("reference_id", "X")]⟩ [] =
      (make_response 200 (PyVal.dict [("message", PyVal.str "Invoice deleted")]), []) ∧
    table_get_item [] (PyVal.str "X") = none ∧ (200 : Nat) ≠ 404 :=
  ⟨rfl, rfl, by decide⟩

/-- C5 (amended): `DELETE /invoices/(reference_id)` always returns 200
with the "Invoice deleted" message and removes the record if present;
presence of the `reference_id` is never consulted, so an absent id also
yields 200 and leaves the store unchanged (the delete is a no-op on it). -/
theorem delete_invoice_always_200 (ev : Event) (store : Store) (ps : List (String × String))
    (rid : String)
    (hps : ev.pathParameters = some ps) (hrid : alookup ps "reference_id" = some rid) :
    delete_invoice_handler ev store =
      (make_response 200 (PyVal.dict [("message", PyVal.str "Invoice deleted")]),
        table_delete_item store (PyVal.str rid)) := by
  simp [delete_invoice_handler, delete_invoice_core, hps, hrid]

/-- C5 witness: the amended claim evaluated on a store holding one other
record. -/
theorem delete_invoice_always_200_witness :
    (⟨some "/invoices/X", some "DELETE", [], none, some [("reference_id", "X")]⟩ :
        Event).pathParameters = some [("reference_id", "X")] ∧
    alookup [("reference_id", "X")] "reference_id" = some "X" ∧
    delete_invoice_handler
        ⟨some "/invoices/X", some "DELETE", [], none, some [("reference_id", "X")]⟩
        [(PyVal.str "Y", PyVal.dict [])] =
      (make_response 200 (PyVal.dict [("message", PyVal.str "Invoice deleted")]),
        table_delete_item [(PyVal.str "Y", PyVal.dict [])] (PyVal.str "X")) :=
  ⟨rfl, rfl, delete_invoice_always_200 _ _ _ _ rfl rfl⟩

/-! ## Claim C7 -/

/-- C7: for an invoice present in the store whose item list contains no
item with `str(item.get("id"))` equal to the path `item_id`,
`DELETE /invoices/(reference_id)/items/(item_id)` returns 404
"Item not found" and performs no write: the store is returned unchanged. -/
theorem delete_missing_item_404_unchanged (ev : Event) (store : Store)
    (ps : List (String × String)) (rid iid : String)
    (recd : List (String × PyVal)) (its : List PyVal)
    (hps : ev.pathParameters = some ps)
    (hrid : alookup ps "reference_id" = some rid)
    (hiid : alookup ps "item_id" = some iid)
    (hrec : table_get_item store (PyVal.str rid) = some (PyVal.dict recd))
    (hits : (alookup recd "items").getD (PyVal.list []) = PyVal.list its)
    (hall : ∀ it ∈ its, ∃ dd, it = PyVal.dict dd ∧
        py_str ((alookup dd "id").getD PyVal.null) ≠ iid) :
    delete_item_from_invoice ev store =
      (make_response 404 (PyVal.dict [("error", PyVal.str "Item not found")]), store) := by
  simp [delete_item_from_invoice, delete_item_core, hps, hrid, hiid, hrec, hits,
    pyIterate, filterItems_all_ne iid its hall]

/-- C7 witness: one-item invoice, mismatching item id. -/
theorem delete_missing_item_404_unchanged_witness :
    (⟨some "/invoices/R/items/9", some "DELETE", [], none,
        some [("reference_id", "R"), ("item_id", "9")]⟩ : Event).pathParameters =
      some [("reference_id", "R"), ("item_id", "9")] ∧
    alookup [("reference_id", "R"), ("item_id", "9")] "reference_id" = some "R" ∧
    alookup [("reference_id", "R"), ("item_id", "9")] "item_id" = some "9" ∧
    table_get_item
        [(PyVal.str "R", PyVal.dict [("items", PyVal.list [PyVal.dict [("id", PyVal.int 1)]])])]
        (PyVal.str "R") =
      some (PyVal.dict [("items", PyVal.list [PyVal.dict [("id", PyVal.int 1)]])]) ∧
    delete_item_from_invoice
        ⟨some "/invoices/R/items/9", some "DELETE", [], none,
          some [("reference_id", "R"), ("item_id", "9")]⟩
        [(PyVal.str "R", PyVal.dict [("items", PyVal.list [PyVal.dict [("id", PyVal.int 1)]])])] =
      (make_response 404 (PyVal.dict [("error", PyVal.str "Item not found")]),
        [(PyVal.str "R", PyVal.dict [("items", PyVal.list [PyVal.dict [("id", PyVal.int 1)]])])]) :=
  ⟨rfl, rfl, rfl, rfl,
    delete_missing_item_404_unchanged _ _ _ _ _ _ [PyVal.dict [("id", PyVal.int 1)]]
      rfl rfl rfl rfl rfl
      (by
        intro it hit
        rw [List.mem_singleton] at hit
        subst hit
        exact ⟨[("id", PyVal.int 1)], rfl, by decide⟩)⟩

/-! ## Claim C8 -/

/-- C8 counterexample: a create request with no Content-Type header at
all yields a 500 (the `None` content type raises `AttributeError` inside
the handler), not the 400 the claim states. -/
theorem create_no_content_type_cex :
    create_invoice_handler ⟨fun _ => Except.error "unused", fun _ => Except.error "unused", "T0"⟩
        ⟨some "/invoices", some "POST", [], none, none⟩ [] =
      (make_response 500 (PyVal.dict [("error",
        PyVal.str "AttributeError: NoneType object has no attribute startswith")]), []) ∧
    (500 : Nat) ≠ 400 :=
  ⟨rfl, by decide⟩

/-- C8 (amended): when a Content-Type header is present and is neither
`multipart/form-data` nor `application/json`, `POST /invoices` returns
400 "Unsupported Content-Type" with the store untouched; a request with
no Content-Type header instead surfaces as a 500. -/
theorem create_unsupported_content_type_400 (env : ExternalEnv) (ev : Event) (store : Store)
    (ct : String)
    (hct : getContentType ev.headers = some ct)
    (h1 : pyStartsWith ct "multipart/form-data" = false)
    (h2 : pyStartsWith ct "application/json" = false) :
    create_invoice_handler env ev store =
      (make_response 400 (PyVal.dict [("error", PyVal.str "Unsupported Content-Type")]), store) := by
  simp [create_invoice_handler, create_invoice_core, hct, h1, h2]

/-- C8 witness: `Content-Type: text/plain`. -/
theorem create_unsupported_content_type_400_witness :
    getContentType [("Content-Type", "text/plain")] = some "text/plain" ∧
    pyStartsWith "text/plain" "multipart/form-data" = false ∧
    pyStartsWith "text/plain" "application/json" = false ∧
    create_invoice_handler ⟨fun _ => Except.error "unused", fun _ => Except.error "unused", "T0"⟩
        ⟨some "/invoices", some "POST", [("Content-Type", "text/plain")], none, none⟩ [] =
      (make_response 400 (PyVal.dict [("error", PyVal.str "Unsupported Content-Type")]), []) :=
  ⟨rfl, rfl, rfl,
    create_unsupported_content_type_400 _ _ _ _ rfl rfl rfl⟩

/-! ## Claim C6 -/

/-- C6 counterexample: a create request whose `reference_id` already
exists but which is missing another required field returns 400, not the
409 the claim states for every such request — validation runs before the
duplicate check. -/
theorem duplicate_create_invalid_cex :
    create_invoice_handler
        ⟨fun _ => Except.ok (PyVal.dict [("reference_id", PyVal.str "R1")]),
          fun _ => Except.error "unused", "T0"⟩
        ⟨some "/invoices", some "POST", [("Content-Type", "application/json")], some "B", none⟩
        [(PyVal.str "R1", PyVal.dict [("reference_id", PyVal.str "R1")])] =
      (make_response 400 (PyVal.dict [("error", PyVal.str "Missing field: company_name")]),
        [(PyVal.str "R1", PyVal.dict [("reference_id", PyVal.str "R1")])]) ∧
    table_get_item [(PyVal.str "R1", PyVal.dict [("reference_id", PyVal.str "R1")])]
        (PyVal.str "R1") = some (PyVal.dict [("reference_id", PyVal.str "R1")]) ∧
    (400 : Nat) ≠ 409 :=
  ⟨rfl, rfl, by decide⟩

/-- C6 (amended): a create request that passes field validation (body
acquired, all required fields present, items a list of items with all
required item fields) and whose `reference_id` already exists in the
store gets 409 "Invoice already exists" and the store — in particular
the record stored under that `reference_id` — is returned unchanged: no
write is performed. -/
theorem duplicate_create_conflict (env : ExternalEnv) (ev : Event) (store : Store)
    (body : List (String × PyVal)) (rv w : PyVal)
    (hacq : acquires_body env ev body)
    (hreq : ∀ f ∈ required_fields, keyMem body f = true)
    (hitems : ∃ its, alookup body "items" = some (PyVal.list its) ∧
      ∀ it ∈ its, ∃ dd, it = PyVal.dict dd ∧ ∀ g ∈ item_required_fields, keyMem dd g = true)
    (hrid : alookup body "reference_id" = some rv)
    (hdup : table_get_item store rv = some w) :
    create_invoice_handler env ev store =
      (make_response 409 (PyVal.dict [("error", PyVal.str "Invoice already exists")]), store) := by
  obtain ⟨its, hits, hall⟩ := hitems
  show (match create_invoice_core env ev store with
        | Except.ok r => r
        | Except.error e => (make_response 500 (PyVal.dict [("error", PyVal.str e)]), store)) = _
  rw [create_core_of_acquires env ev store body hacq]
  simp [create_invoice_validated, required_find_none body hreq, hits, pyIterate,
    checkItems_ok its hall, hrid, hdup]

/-- C6 witness: a fully valid duplicate create request. -/
theorem duplicate_create_conflict_witness :
    acquires_body
      ⟨fun _ => Except.ok (PyVal.dict
          [("reference_id", PyVal.str "R1"), ("company_name", PyVal.str "C"),
           ("tin", PyVal.str "T"), ("invoice_number", PyVal.str "N"),
           ("transaction_date", PyVal.str "D"),
           ("items", PyVal.list [PyVal.dict
             [("id", PyVal.int 1), ("particulars", PyVal.str "P"),
              ("project_class", PyVal.str "PC"), ("account", PyVal.str "A"),
              ("vatable", PyVal.bool true), ("amount", PyVal.int 5)]]),
           ("encoder", PyVal.str "E"), ("payee", PyVal.str "Y"),
           ("payee_account", PyVal.str "PA"), ("approver", PyVal.str "AP")]),
        fun _ => Except.error "unused", "T0"⟩
      ⟨some "/invoices", some "POST", [("Content-Type", "application/json")], some "B", none⟩
      (dictSet
        [("reference_id", PyVal.str "R1"), ("company_name", PyVal.str "C"),
         ("tin", PyVal.str "T"), ("invoice_number", PyVal.str "N"),
         ("transaction_date", PyVal.str "D"),
         ("items", PyVal.list [PyVal.dict
           [("id", PyVal.int 1), ("particulars", PyVal.str "P"),
            ("project_class", PyVal.str "PC"), ("account", PyVal.str "A"),
            ("vatable", PyVal.bool true), ("amount", PyVal.int 5)]]),
         ("encoder", PyVal.str "E"), ("payee", PyVal.str "Y"),
         ("payee_account", PyVal.str "PA"), ("approver", PyVal.str "AP")]
        "file_url" (PyVal.str "no-file-uploaded")) ∧
    create_invoice_handler
        ⟨fun _ => Except.ok (PyVal.dict
            [("reference_id", PyVal.str "R1"), ("company_name", PyVal.str "C"),
             ("tin", PyVal.str "T"), ("invoice_number", PyVal.str "N"),
             ("transaction_date", PyVal.str "D"),
             ("items", PyVal.list [PyVal.dict
               [("id", PyVal.int 1), ("particulars", PyVal.str "P"),
                ("project_class", PyVal.str "PC"), ("account", PyVal.str "A"),
                ("vatable", PyVal.bool true), ("amount", PyVal.int 5)]]),
             ("encoder", PyVal.str "E"), ("payee", PyVal.str "Y"),
             ("payee_account", PyVal.str "PA"), ("approver", PyVal.str "AP")]),
          fun _ => Except.error "unused", "T0"⟩
        ⟨some "/invoices", some "POST", [("Content-Type", "application/json")], some "B", none⟩
        [(PyVal.str "R1", PyVal.dict [("reference_id", PyVal.str "R1")])] =
      (make_response 409 (PyVal.dict [("error", PyVal.str "Invoice already exists")]),
        [(PyVal.str "R1", PyVal.dict [("reference_id", PyVal.str "R1")])]) :=
  ⟨Or.inr ⟨"application/json", _, rfl, rfl, rfl, rfl, rfl⟩,
    duplicate_create_conflict _ _ _ _ (PyVal.str "R1")
      (PyVal.dict [("reference_id", PyVal.str "R1")])
      (Or.inr ⟨"application/json", _, rfl, rfl, rfl, rfl, rfl⟩)
      (by decide)
      ⟨[PyVal.dict
          [("id", PyVal.int 1), ("particulars", PyVal.str "P"),
           ("project_class", PyVal.str "PC"), ("account", PyVal.str "A"),
           ("vatable", PyVal.bool true), ("amount", PyVal.int 5)]], rfl,
        by
          intro it hit
          rw [List.mem_singleton] at hit
          subst hit
          exact ⟨_, rfl, by decide⟩⟩
      rfl rfl⟩

/-! ## Claim C9 -/

/-- C9: a well-formed create request (body acquired, all required fields
present, items a list of valid items) with a fresh string `reference_id`
gets 201 with the stored record echoed back under `data`, the record
carries `status = "Pending"`, it is written to the store under that
`reference_id`, and a subsequent `GET /invoices/(reference_id)` returns
200 with that same record. -/
theorem create_then_get_roundtrip (env : ExternalEnv) (ev : Event) (store : Store)
    (body : List (String × PyVal)) (r : String)
    (hacq : acquires_body env ev body)
    (hreq : ∀ f ∈ required_fields, keyMem body f = true)
    (hitems : ∃ its, alookup body "items" = some (PyVal.list its) ∧
      ∀ it ∈ its, ∃ dd, it = PyVal.dict dd ∧ ∀ g ∈ item_required_fields, keyMem dd g = true)
    (hrid : alookup body "reference_id" = some (PyVal.str r))
    (hnew : table_get_item store (PyVal.str r) = none) :
    ∃ inv fl, inv = PyVal.dict fl ∧
      alookup fl "status" = some (PyVal.str "Pending") ∧
      create_invoice_handler env ev store =
        (make_response 201 (PyVal.dict [("message", PyVal.str "Invoice created"), ("data", inv)]),
          table_put_item store (PyVal.str r) inv) ∧
      (∀ ev2 ps2, ev2.pathParameters = some ps2 → alookup ps2 "reference_id" = some r →
        get_invoice_handler ev2 (table_put_item store (PyVal.str r) inv) =
          (make_response 200 inv, table_put_item store (PyVal.str r) inv)) := by
  obtain ⟨its, hits, hall⟩ := hitems
  refine ⟨_,
    [("reference_id", PyVal.str r),
     ("company_name", (alookup body "company_name").getD PyVal.null),
     ("tin", (alookup body "tin").getD PyVal.null),
     ("invoice_number", (alookup body "invoice_number").getD PyVal.null),
     ("transaction_date", (alookup body "transaction_date").getD PyVal.null),
     ("items", PyVal.list its),
     ("encoder", (alookup body "encoder").getD PyVal.null),
     ("payee", (alookup body "payee").getD PyVal.null),
     ("payee_account", (alookup body "payee_account").getD PyVal.null),
     ("approver", (alookup body "approver").getD PyVal.null),
     ("file_url", (alookup body "file_url").getD (PyVal.str "no-file-uploaded")),
     ("encoding_date", PyVal.str env.utcnowIso),
     ("status", PyVal.str "Pending")], rfl, rfl, ?_, ?_⟩
  · show (match create_invoice_core env ev store with
          | Except.ok res => res
          | Except.error e => (make_response 500 (PyVal.dict [("error", PyVal.str e)]), store)) = _
    rw [create_core_of_acquires env ev store body hacq]
    simp [create_invoice_validated, required_find_none body hreq, hits, pyIterate,
      checkItems_ok its hall, hrid, hnew, create_invoice_write]
  · intro ev2 ps2 h2 h3
    show (match get_invoice_core ev2 _ with
          | Except.ok res => res
          | Except.error e => (make_response 500 (PyVal.dict [("error", PyVal.str e)]), _)) = _
    simp [get_invoice_core, h2, h3, table_get_put, decimal_to_float_id]

/-- C9 witness: a concrete valid create request against the empty store,
with the end-to-end conclusion instantiated. -/
theorem create_then_get_roundtrip_witness :
    acquires_body
      ⟨fun _ => Except.ok (PyVal.dict
          [("reference_id", PyVal.str "R2"), ("company_name", PyVal.str "C"),
           ("tin", PyVal.str "T"), ("invoice_number", PyVal.str "N"),
           ("transaction_date", PyVal.str "D"),
           ("items", PyVal.list [PyVal.dict
             [("id", PyVal.int 1), ("particulars", PyVal.str "P"),
              ("project_class", PyVal.str "PC"), ("account", PyVal.str "A"),
              ("vatable", PyVal.bool true), ("amount", PyVal.int 5)]]),
           ("encoder", PyVal.str "E"), ("payee", PyVal.str "Y"),
           ("payee_account", PyVal.str "PA"), ("approver", PyVal.str "AP")]),
        fun _ => Except.error "unused", "T1"⟩
      ⟨some "/invoices", some "POST", [("Content-Type", "application/json")], some "B", none⟩
      (dictSet
        [("reference_id", PyVal.str "R2"), ("company_name", PyVal.str "C"),
         ("tin", PyVal.str "T"), ("invoice_number", PyVal.str "N"),
         ("transaction_date", PyVal.str "D"),
         ("items", PyVal.list [PyVal.dict
           [("id", PyVal.int 1), ("particulars", PyVal.str "P"),
            ("project_class", PyVal.str "PC"), ("account", PyVal.str "A"),
            ("vatable", PyVal.bool true), ("amount", PyVal.int 5)]]),
         ("encoder", PyVal.str "E"), ("payee", PyVal.str "Y"),
         ("payee_account", PyVal.str "PA"), ("approver", PyVal.str "AP")]
        "file_url" (PyVal.str "no-file-uploaded")) ∧
    (∃ inv fl, inv = PyVal.dict fl ∧
      alookup fl "status" = some (PyVal.str "Pending") ∧
      create_invoice_handler
          ⟨fun _ => Except.ok (PyVal.dict
              [("reference_id", PyVal.str "R2"), ("company_name", PyVal.str "C"),
               ("tin", PyVal.str "T"), ("invoice_number", PyVal.str "N"),
               ("transaction_date", PyVal.str "D"),
               ("items", PyVal.list [PyVal.dict
                 [("id", PyVal.int 1), ("particulars", PyVal.str "P"),
                  ("project_class", PyVal.str "PC"), ("account", PyVal.str "A"),
                  ("vatable", PyVal.bool true), ("amount", PyVal.int 5)]]),
               ("encoder", PyVal.str "E"), ("payee", PyVal.str "Y"),
               ("payee_account", PyVal.str "PA"), ("approver", PyVal.str "AP")]),
            fun _ => Except.error "unused", "T1"⟩
          ⟨some "/invoices", some "POST", [("Content-Type", "application/json")], some "B", none⟩
          [] =
        (make_response 201 (PyVal.dict [("message", PyVal.str "Invoice created"), ("data", inv)]),
          table_put_item [] (PyVal.str "R2") inv) ∧
      (∀ ev2 ps2, ev2.pathParameters = some ps2 → alookup ps2 "reference_id" = some "R2" →
        get_invoice_handler ev2 (table_put_item [] (PyVal.str "R2") inv) =
          (make_response 200 inv, table_put_item [] (PyVal.str "R2") inv))) :=
  ⟨Or.inr ⟨"application/json", _, rfl, rfl, rfl, rfl, rfl⟩,
    create_then_get_roundtrip _ _ _ _ "R2"
      (Or.inr ⟨"application/json", _, rfl, rfl, rfl, rfl, rfl⟩)
      (by decide)
      ⟨[PyVal.dict
          [("id", PyVal.int 1), ("particulars", PyVal.str "P"),
           ("project_class", PyVal.str "PC"), ("account", PyVal.str "A"),
           ("vatable", PyVal.bool true), ("amount", PyVal.int 5)]], rfl,
        by
          intro it hit
          rw [List.mem_singleton] at hit
          subst hit
          exact ⟨_, rfl, by decide⟩⟩
      rfl rfl⟩

theorem keyMem_of_alookup {β : Type} (d : List (String × β)) (k : String) (v : β)
    (h : alookup d k = some v) : keyMem d k = true := by
  obtain ⟨p, hfind, _⟩ := Option.map_eq_some'.mp h
  have hpred := List.find?_some hfind
  exact List.any_eq_true.mpr ⟨p, List.mem_of_find?_eq_some hfind, hpred⟩

/-! ## Claim C10 -/

/-- C10: when the `items` value of an acquired create body is a string,
the handler parses it with `json.loads` before validating; if it parses
to a list, the whole creation behaves exactly as if that list had been
supplied directly in place of the string (a non-string `items` value is
used as-is by the same code path). -/
theorem items_string_parsed_equiv (env : ExternalEnv) (store : Store)
    (d : List (String × PyVal)) (s : String) (xs : List PyVal)
    (hit : alookup d "items" = some (PyVal.str s))
    (hp : env.jsonLoads s = Except.ok (PyVal.list xs)) :
    create_invoice_validated env d store =
      create_invoice_validated env (dictSet d "items" (PyVal.list xs)) store := by
  have hmemItems : keyMem d "items" = true := keyMem_of_alookup d "items" _ hit
  have hkm : ∀ f, keyMem (dictSet d "items" (PyVal.list xs)) f = keyMem d f := by
    intro f
    rw [keyMem_dictSet]
    by_cases hf : f = "items"
    · subst hf
      simp [hmemItems]
    · simp [beq_eq_false_iff_ne.mpr hf]
  have halk : ∀ f, f ≠ "items" →
      alookup (dictSet d "items" (PyVal.list xs)) f = alookup d f := by
    intro f hf
    rw [alookup_dictSet]
    simp [hf]
  have hitems2 : alookup (dictSet d "items" (PyVal.list xs)) "items" = some (PyVal.list xs) := by
    rw [alookup_dictSet]
    simp
  have hpredeq : (fun f => !(keyMem (dictSet d "items" (PyVal.list xs)) f)) =
      (fun f => !(keyMem d f)) := funext (fun f => by rw [hkm f])
  simp only [create_invoice_validated, hpredeq, hit, hitems2, hp]
  cases hF : required_fields.find? (fun f => !(keyMem d f)) with
  | some f => rfl
  | none =>
    simp only [pyIterate]
    cases hC : checkItems xs with
    | error e => rfl
    | ok o =>
      cases o with
      | some f => rfl
      | none =>
        rw [halk "reference_id" (by decide)]
        cases hR : alookup d "reference_id" with
        | none => rfl
        | some rid =>
          dsimp only
          cases hT : table_get_item store rid with
          | some w => rfl
          | none =>
            simp only [create_invoice_write, halk "company_name" (by decide),
              halk "tin" (by decide), halk "invoice_number" (by decide),
              halk "transaction_date" (by decide), halk "encoder" (by decide),
              halk "payee" (by decide), halk "payee_account" (by decide),
              halk "approver" (by decide), halk "file_url" (by decide)]

/-- C10 witness: an `items` value that is the string "S", parsed by the
environment to a one-item list, against the direct list form. -/
theorem items_string_parsed_equiv_witness :
    alookup [("reference_id", PyVal.str "R3"), ("items", PyVal.str "S")] "items" =
      some (PyVal.str "S") ∧
    (⟨fun t => if t = "S" then Except.ok (PyVal.list [PyVal.dict [("id", PyVal.int 7)]])
        else Except.error "bad",
      fun _ => Except.error "unused", "T2"⟩ : ExternalEnv).jsonLoads "S" =
      Except.ok (PyVal.list [PyVal.dict [("id", PyVal.int 7)]]) ∧
    create_invoice_validated
        ⟨fun t => if t = "S" then Except.ok (PyVal.list [PyVal.dict [("id", PyVal.int 7)]])
            else Except.error "bad",
          fun _ => Except.error "unused", "T2"⟩
        [("reference_id", PyVal.str "R3"), ("items", PyVal.str "S")] [] =
      create_invoice_validated
        ⟨fun t => if t = "S" then Except.ok (PyVal.list [PyVal.dict [("id", PyVal.int 7)]])
            else Except.error "bad",
          fun _ => Except.error "unused", "T2"⟩
        (dictSet [("reference_id", PyVal.str "R3"), ("items", PyVal.str "S")] "items"
          (PyVal.list [PyVal.dict [("id", PyVal.int 7)]])) [] :=
  ⟨rfl, rfl, items_string_parsed_equiv _ _ _ _ _ rfl rfl⟩

/-! ## Claim C1 -/

/-- C1: with no exact route-table entry for (path, method), the
dispatcher scans registered routes in registration order restricted to
the request method; a route is skipped when its trimmed `/`-segment
count differs from the path's; segments are walked pairwise with
brace-placeholders binding unconditionally and any other segment
required to equal the path segment exactly (case-sensitively); the
first route satisfying the declarative matcher wins (`find?` over the
registration list — no later route is consulted) and its handler is
invoked on the event carrying exactly the spec bindings as path
parameters. -/
theorem routing_pattern_first_match (routes : List RouteEntry) (ev : Event) (store : Store)
    (p m : String) (r : RouteEntry)
    (hp : ev.path = some p) (hm : ev.httpMethod = some m)
    (hex : routeLookup routes ev.path ev.httpMethod = none)
    (hfind : routes.find? (fun rr => (rr.method == m) && specRouteMatches rr.pattern p) = some r) :
    lambda_handler routes ev store =
      some (r.handler
        (setPathParameters ev (specBindings (splitSegs r.pattern) (splitSegs p))) store) := by
  rw [hp, hm] at hex
  simp only [lambda_handler, dispatch, hp, hm, hex, patternPhase_eq_find, hfind]

/-- C1 witness: `GET /invoices/ABC-1` against the application's route
table falls through the exact lookup and pattern-matches the third
registration, binding `reference_id` to `ABC-1`. -/
theorem routing_pattern_first_match_witness :
    routeLookup (app_routes ⟨fun _ => Except.error "unused", fun _ => Except.error "unused", "T3"⟩)
        (some "/invoices/ABC-1") (some "GET") = none ∧
    (app_routes ⟨fun _ => Except.error "unused", fun _ => Except.error "unused", "T3"⟩).find?
        (fun rr => (rr.method == "GET") && specRouteMatches rr.pattern "/invoices/ABC-1") =
      some ⟨"/invoices/\x7breference_id\x7d", "GET", get_invoice_handler⟩ ∧
    lambda_handler (app_routes ⟨fun _ => Except.error "unused", fun _ => Except.error "unused", "T3"⟩)
        ⟨some "/invoices/ABC-1", some "GET", [], none, none⟩
        [(PyVal.str "ABC-1", PyVal.dict [("reference_id", PyVal.str "ABC-1")])] =
      some (get_invoice_handler
        (setPathParameters ⟨some "/invoices/ABC-1", some "GET", [], none, none⟩
          (specBindings (splitSegs "/invoices/\x7breference_id\x7d") (splitSegs "/invoices/ABC-1")))
        [(PyVal.str "ABC-1", PyVal.dict [("reference_id", PyVal.str "ABC-1")])]) :=
  ⟨rfl, rfl,
    routing_pattern_first_match
      (app_routes ⟨fun _ => Except.error "unused", fun _ => Except.error "unused", "T3"⟩)
      ⟨some "/invoices/ABC-1", some "GET", [], none, none⟩
      [(PyVal.str "ABC-1", PyVal.dict [("reference_id", PyVal.str "ABC-1")])]
      "/invoices/ABC-1" "GET"
      ⟨"/invoices/\x7breference_id\x7d", "GET", get_invoice_handler⟩
      rfl rfl rfl rfl⟩

/-! ## Claim C2 -/

/-- C2 counterexample: on an exact hit the dispatcher passes the event
through unchanged, so a request already carrying nonempty
`pathParameters` is handled with them intact — the handler does not see
an empty mapping as the claim states. -/
theorem exact_match_nonempty_params_cex :
    lambda_handler
        [⟨"/invoices", "GET",
          fun e s => (make_response 200 (PyVal.dict ((e.pathParameters.getD []).map
            (fun q => (q.1, PyVal.str q.2)))), s)⟩]
        ⟨some "/invoices", some "GET", [], none, some [("a", "b")]⟩ [] =
      some (make_response 200 (PyVal.dict [("a", PyVal.str "b")]), []) ∧
    (some [("a", "b")] : Option (List (String × String))) ≠ some [] :=
  ⟨rfl, by decide⟩

/-- C2 (amended): a (path, method) pair present verbatim in the route
table dispatches to that entry's handler ahead of the pattern matcher,
with the event passed through unchanged: the dispatcher does not touch
`pathParameters` on this branch, so the handler sees exactly the mapping
the request already carried (empty only if the request's was empty). -/
theorem exact_match_precedence_event_unchanged (routes : List RouteEntry) (ev : Event)
    (store : Store) (h : Handler)
    (hl : routeLookup routes ev.path ev.httpMethod = some h) :
    lambda_handler routes ev store = some (h ev store) := by
  simp only [lambda_handler, dispatch, hl]

/-- C2 witness: `GET /invoices` hits the second registration exactly. -/
theorem exact_match_precedence_witness :
    routeLookup (app_routes ⟨fun _ => Except.error "unused", fun _ => Except.error "unused", "T4"⟩)
        (some "/invoices") (some "GET") = some get_all_invoices ∧
    lambda_handler (app_routes ⟨fun _ => Except.error "unused", fun _ => Except.error "unused", "T4"⟩)
        ⟨some "/invoices", some "GET", [], none, none⟩ [] =
      some (get_all_invoices ⟨some "/invoices", some "GET", [], none, none⟩ []) :=
  ⟨rfl, exact_match_precedence_event_unchanged _ _ _ _ rfl⟩

/-! ## Claim C3 -/

/-- C3 counterexample: an event whose path is absent while its method
matches a registered route makes the dispatcher itself raise
(`AttributeError` on `None.strip`), modelled by the `none` result —
contradicting "the dispatcher never raises, including for events whose
path is absent". -/
theorem dispatcher_raises_on_null_path_cex :
    lambda_handler [⟨"/invoices", "GET", get_all_invoices⟩]
      ⟨none, some "GET", [], none, none⟩ [] = none := rfl

/-- C3 (amended): the dispatcher never raises for events whose path is
present (and also not when no registered route carries the request's
method): it returns either the fixed not-found response with the store
unchanged, or the result of exactly one registered handler.  An absent
path whose method matches some registered route raises instead. -/
theorem dispatcher_total_for_present_path (routes : List RouteEntry) (ev : Event) (store : Store)
    (h : ev.path.isSome = true ∨ ∀ r ∈ routes, (ev.httpMethod == some r.method) = false) :
    lambda_handler routes ev store =
        some (make_response 404 (PyVal.dict [("error", PyVal.str "Not Found")]), store) ∨
      ∃ r, r ∈ routes ∧ ∃ ev2, lambda_handler routes ev store = some (r.handler ev2 store) := by
  cases hlook : routeLookup routes ev.path ev.httpMethod with
  | some hh =>
    right
    obtain ⟨rr, hfind, hrr⟩ := Option.map_eq_some'.mp hlook
    refine ⟨rr, List.mem_of_find?_eq_some hfind, ev, ?_⟩
    simp only [lambda_handler, dispatch, hlook, hrr]
  | none =>
    rcases h with hpath | hmeth
    · obtain ⟨p, hp⟩ := Option.isSome_iff_exists.mp hpath
      rw [hp] at hlook
      obtain ⟨o, ho, hshape⟩ := patternPhase_shape routes p ev.httpMethod
      rcases hshape with hnf | ⟨r, hr, ps, hps⟩
      · left
        subst hnf
        simp only [lambda_handler, dispatch, hlook, hp, ho]
      · right
        refine ⟨r, hr, setPathParameters ev ps, ?_⟩
        subst hps
        simp only [lambda_handler, dispatch, hlook, hp, ho]
    · left
      have hnone := patternPhase_no_method routes ev.path ev.httpMethod hmeth
      simp only [lambda_handler, dispatch, hlook, hnone]

/-- C3 witness: a present path that matches nothing lands in the left
(not-found) disjunct. -/
theorem dispatcher_total_witness :
    ((⟨some "/nomatch", some "GET", [], none, none⟩ : Event).path.isSome = true ∨
      ∀ r ∈ [(⟨"/x", "GET", get_all_invoices⟩ : RouteEntry)],
        (((⟨some "/nomatch", some "GET", [], none, none⟩ : Event).httpMethod == some r.method)) = false) ∧
    (lambda_handler [⟨"/x", "GET", get_all_invoices⟩]
        ⟨some "/nomatch", some "GET", [], none, none⟩ [] =
        some (make_response 404 (PyVal.dict [("error", PyVal.str "Not Found")]), []) ∨
      ∃ r, r ∈ [(⟨"/x", "GET", get_all_invoices⟩ : RouteEntry)] ∧
        ∃ ev2, lambda_handler [⟨"/x", "GET", get_all_invoices⟩]
          ⟨some "/nomatch", some "GET", [], none, none⟩ [] = some (r.handler ev2 [])) :=
  ⟨Or.inl rfl, dispatcher_total_for_present_path _ _ _ (Or.inl rfl)⟩

/-! ## Claim C4 -/

/-- C4 counterexample: the fixed not-found result carries
`Content-Type: application/json` and the JSON object body
`(error: Not Found)` — not a plain-text body as the claim states. -/
theorem not_found_body_is_json_cex :
    lambda_handler [] ⟨some "/nope", some "GET", [], none, none⟩ [] =
      some (⟨404, [("Content-Type", "application/json")],
        PyVal.dict [("error", PyVal.str "Not Found")]⟩, []) ∧
    alookup [("Content-Type", "application/json")] "Content-Type" ≠ some "text/plain" :=
  ⟨rfl, by decide⟩

/-- C4 (amended): a (path, method) pair with no exact entry and matching
no registered pattern yields the fixed 404 result — JSON object body
`(error: Not Found)` served as `application/json` — with the store
unchanged and no handler invoked (the result is the same whatever the
registered handlers are). -/
theorem no_match_returns_fixed_404 (routes : List RouteEntry) (ev : Event) (store : Store)
    (p m : String)
    (hp : ev.path = some p) (hm : ev.httpMethod = some m)
    (hex : routeLookup routes ev.path ev.httpMethod = none)
    (hnone : routes.find? (fun rr => (rr.method == m) && specRouteMatches rr.pattern p) = none) :
    lambda_handler routes ev store =
      some (make_response 404 (PyVal.dict [("error", PyVal.str "Not Found")]), store) := by
  rw [hp, hm] at hex
  simp only [lambda_handler, dispatch, hp, hm, hex, patternPhase_eq_find, hnone]

/-- C4 witness: a four-segment path matches no registration. -/
theorem no_match_returns_fixed_404_witness :
    routeLookup (app_routes ⟨fun _ => Except.error "unused", fun _ => Except.error "unused", "T5"⟩)
        (some "/invoices/A/B/C") (some "GET") = none ∧
    (app_routes ⟨fun _ => Except.error "unused", fun _ => Except.error "unused", "T5"⟩).find?
        (fun rr => (rr.method == "GET") && specRouteMatches rr.pattern "/invoices/A/B/C") = none ∧
    lambda_handler (app_routes ⟨fun _ => Except.error "unused", fun _ => Except.error "unused", "T5"⟩)
        ⟨some "/invoices/A/B/C", some "GET", [], none, none⟩ [] =
      some (make_response 404 (PyVal.dict [("error", PyVal.str "Not Found")]), []) :=
  ⟨rfl, rfl, no_match_returns_fixed_404 _ _ _ _ _ rfl rfl rfl rfl⟩

end InvApp
